import Mathlib

/-!
Shallow embedding of `src/scripts/lint.py`: a process orchestrator that runs
`cargo dylint` with `CARGO_TARGET_DIR` overridden to a subdirectory of the
platform temporary directory, then runs `cargo clippy` with the inherited
environment, and prints the concatenation of the two captured standard-output
texts followed by a newline.
-/

namespace Lint

/-- Result of `subprocess.run(..., capture_output=True, text=True)`:
captured standard output, captured standard error, and the child's exit
status. -/
structure CapturedResult where
  stdout : String
  stderr : String
  returncode : Int
deriving DecidableEq

/-- A process environment: a mapping from variable names to values. -/
def Env : Type := String → Option String

/-- Python dictionary assignment `e[k] = v`: the key `k` now maps to `v`,
every other key is unchanged. -/
def Env.set (e : Env) (k v : String) : Env :=
  fun x => if x = k then some v else e x

/-- `os.path.join a b` for a single join step (POSIX rules): an absolute
second component replaces the first; otherwise a separator is inserted
unless the first component is empty or already ends with one. -/
def os_path_join (a b : String) : String :=
  if b.startsWith "/" then b
  else if a = "" ∨ a.endsWith "/" then a ++ b
  else a ++ "/" ++ b

/-- The ambient world the script runs in: the process-inherited environment
(`os.environ`), the platform temporary directory (`tempfile.gettempdir()`),
and the behaviour of the external tools — what `subprocess.run` captures
when a given argument list is executed under a given environment. -/
structure World where
  environ : Env
  gettempdir : String
  run : List String → Env → CapturedResult

/-- Observable events of the script, recorded in program order: a child
process invocation (arguments, environment passed, captured result), or a
write of text to the orchestrator's own standard output. -/
inductive Event where
  | invoke (args : List String) (e : Env) (r : CapturedResult)
  | print (s : String)

/-- `subprocess.run(args, capture_output=True, text=True, env=e)` raises
`CalledProcessError` only when `check=True` and the exit status is non-zero;
the script never passes `check=True`, so this is the only failure path
modelled. -/
def subprocess_run (w : World) (args : List String) (e : Env) (check : Bool) :
    Except String CapturedResult :=
  let r := w.run args e
  if check = true ∧ r.returncode ≠ 0 then Except.error "CalledProcessError"
  else Except.ok r

/-- `env = os.environ.copy(); env["CARGO_TARGET_DIR"] =
os.path.join(tempfile.gettempdir(), "dylint")`. -/
def env (w : World) : Env :=
  Env.set w.environ "CARGO_TARGET_DIR" (os_path_join w.gettempdir "dylint")

/-- The `dylint_command` list from the source. The two adjacent string
literals `"--no-default-features"` and `"--all-targets"` have no comma
between them in the source, so they denote a single concatenated argument. -/
def dylint_command : List String :=
  ["cargo",
   "dylint",
   "--all",
   "--",
   "--no-default-features" ++ "--all-targets",
   "--message-format=json"]

/-- The `clippy_command` list from the source. -/
def clippy_command : List String :=
  ["cargo", "clippy", "--all-targets", "--message-format=json", "--no-default-features"]

/-- The whole script, statement by statement. Each `subprocess.run` call is
performed in order; an uncaught exception aborts the run as `Except.error`.
On normal completion the result is the trace of observable events together
with the interpreter's exit code (0, since the script body raises nothing
and falls off the end). -/
def script (w : World) : Except String (List Event × Int) :=
  match subprocess_run w dylint_command (env w) false with
  | Except.error m => Except.error m
  | Except.ok dylintRes =>
    match subprocess_run w clippy_command w.environ false with
    | Except.error m => Except.error m
    | Except.ok clippyRes =>
      let combined := dylintRes.stdout ++ clippyRes.stdout
      Except.ok
        ([Event.invoke dylint_command (env w) dylintRes,
          Event.invoke clippy_command w.environ clippyRes,
          Event.print (combined ++ "\n")], 0)

/-- `dylint_output = subprocess.run(dylint_command, ..., env=env)`. -/
def dylint_output (w : World) : CapturedResult :=
  w.run dylint_command (env w)

/-- `clippy_output = subprocess.run(clippy_command, ...)`: no `env=` argument,
so the child inherits the process environment. -/
def clippy_output (w : World) : CapturedResult :=
  w.run clippy_command w.environ

/-- `combined_output = dylint_output.stdout + clippy_output.stdout`. -/
def combined_output (w : World) : String :=
  (dylint_output w).stdout ++ (clippy_output w).stdout

/-- Text written to the orchestrator's standard output by a trace of events. -/
def printedOutput : List Event → String
  | [] => ""
  | Event.print s :: es => s ++ printedOutput es
  | Event.invoke _ _ _ :: es => printedOutput es

/-- The orchestrator's entire standard output: `print(combined_output)`
writes its argument followed by one newline; an uncaught exception would
leave standard output with only what was printed before it. -/
def script_stdout (w : World) : String :=
  match script w with
  | Except.ok (tr, _) => printedOutput tr
  | Except.error _ => ""

lemma script_eq (w : World) :
    script w = Except.ok
      ([Event.invoke dylint_command (env w) (dylint_output w),
        Event.invoke clippy_command w.environ (clippy_output w),
        Event.print (combined_output w ++ "\n")], 0) := by
  simp [script, subprocess_run, dylint_output, clippy_output, combined_output]

lemma script_stdout_eq (w : World) :
    script_stdout w = combined_output w ++ "\n" := by
  simp [script_stdout, script_eq, printedOutput]

lemma env_apply (w : World) (k : String) :
    env w k =
      if k = "CARGO_TARGET_DIR" then some (os_path_join w.gettempdir "dylint")
      else w.environ k := rfl

/-- A concrete world with stub tools: `cargo dylint` prints `A-OUT` to
standard output and `A-ERR` to standard error, any other invocation prints
`B-OUT` and `B-ERR`. -/
def stubWorld : World where
  environ := fun k => if k = "HOME" then some "/home/user" else none
  gettempdir := "/tmp"
  run := fun args _ =>
    if args = dylint_command then ⟨"A-OUT", "A-ERR", 2⟩
    else ⟨"B-OUT", "B-ERR", 0⟩

/-- Same world as `stubWorld` except that the stub tools write different
text to their standard-error streams; standard outputs agree. -/
def stubWorldAltErr : World where
  environ := fun k => if k = "HOME" then some "/home/user" else none
  gettempdir := "/tmp"
  run := fun args _ =>
    if args = dylint_command then ⟨"A-OUT", "OTHER-A-ERR", 2⟩
    else ⟨"B-OUT", "OTHER-B-ERR", 0⟩

/-- A verbatim copy of `stubWorld`, used to compare two runs. -/
def stubWorldCopy : World where
  environ := fun k => if k = "HOME" then some "/home/user" else none
  gettempdir := "/tmp"
  run := fun args _ =>
    if args = dylint_command then ⟨"A-OUT", "A-ERR", 2⟩
    else ⟨"B-OUT", "B-ERR", 0⟩

/-- C1: for every pair of captured results, the orchestrator's entire
standard output is exactly tool A's captured standard-output text
immediately followed by tool B's, with no separator, followed by exactly
one trailing newline; in particular, with stubs printing `A-OUT` and
`B-OUT`, the output is exactly `A-OUTB-OUT` plus one newline. -/
theorem C1_output_concat_exact (w : World) :
    script_stdout w = (dylint_output w).stdout ++ (clippy_output w).stdout ++ "\n" ∧
    ((dylint_output w).stdout = "A-OUT" → (clippy_output w).stdout = "B-OUT" →
      script_stdout w = "A-OUTB-OUT" ++ "\n") := by
  refine ⟨script_stdout_eq w, ?_⟩
  intro hA hB
  rw [script_stdout_eq, combined_output, hA, hB]
  rfl

/-- Witness for C1 at the concrete stub world. -/
theorem C1_output_concat_exact_witness :
    Lint.script_stdout stubWorld = "A-OUTB-OUT" ++ "\n" :=
  (C1_output_concat_exact stubWorld).2 rfl rfl

/-- C2: tool standard-error text never reaches the orchestrator's output:
two runs that agree on inherited environment, temporary directory and every
captured standard-output text produce identical orchestrator output even
when the tools' standard-error texts differ. -/
theorem C2_stderr_never_in_output (w₁ w₂ : World)
    (henv : w₁.environ = w₂.environ)
    (htmp : w₁.gettempdir = w₂.gettempdir)
    (hout : ∀ args e, (w₁.run args e).stdout = (w₂.run args e).stdout) :
    script_stdout w₁ = script_stdout w₂ := by
  rw [script_stdout_eq, script_stdout_eq]
  unfold combined_output dylint_output clippy_output env
  rw [henv, htmp, hout, hout]

/-- Witness for C2: the stub world and its variant with different tool
standard-error texts print the same thing. -/
theorem C2_stderr_never_in_output_witness :
    Lint.script_stdout stubWorld = Lint.script_stdout stubWorldAltErr :=
  C2_stderr_never_in_output stubWorld stubWorldAltErr rfl rfl (by
    intro args e
    by_cases h : args = dylint_command <;>
      simp [stubWorld, stubWorldAltErr, h])

/-- C3: the environment passed to the first tool's invocation is the
inherited environment with exactly the key `CARGO_TARGET_DIR` overridden to
the temporary directory joined with `dylint`; every other variable is
unchanged. -/
theorem C3_dylint_env_override (w : World) :
    (∃ tr c, script w = Except.ok (tr, c) ∧
        tr.head? = some (Event.invoke dylint_command (env w) (dylint_output w))) ∧
    env w "CARGO_TARGET_DIR" = some (os_path_join w.gettempdir "dylint") ∧
    ∀ k, k ≠ "CARGO_TARGET_DIR" → env w k = w.environ k := by
  refine ⟨⟨_, _, script_eq w, rfl⟩, by simp [env_apply], ?_⟩
  intro k hk
  simp [env_apply, hk]

/-- Witness for C3 at the concrete stub world and the key `HOME`. -/
theorem C3_dylint_env_override_witness :
    Lint.env stubWorld "HOME" = some "/home/user" := by
  have h := (C3_dylint_env_override stubWorld).2.2 "HOME" (by decide)
  rw [h]
  rfl

/-- C4: the second tool is invoked with the unmodified process-inherited
environment: its invocation event carries exactly `w.environ`, with no
`CARGO_TARGET_DIR` override. -/
theorem C4_clippy_inherits_environment (w : World) :
    ∃ tr, script w = Except.ok (tr, 0) ∧
      tr[1]? = some (Event.invoke clippy_command w.environ (clippy_output w)) :=
  ⟨_, script_eq w, rfl⟩

/-- C5: for every behaviour of tool A — any exit status included — the
script completes without raising, still invokes tool B, and still prints
the concatenated output. -/
theorem C5_no_abort_on_tool_failure (w : World) :
    ∃ tr, script w = Except.ok (tr, 0) ∧
      Event.invoke clippy_command w.environ (clippy_output w) ∈ tr ∧
      Event.print (combined_output w ++ "\n") ∈ tr := by
  refine ⟨_, script_eq w, ?_, ?_⟩ <;> simp

/-- C6: the orchestrator's own exit status is 0 in every world — for every
pair of tool exit statuses the status is the same and is derived from
neither. -/
theorem C6_exit_status_constant (w₁ w₂ : World) :
    ∃ tr₁ tr₂, script w₁ = Except.ok (tr₁, 0) ∧ script w₂ = Except.ok (tr₂, 0) :=
  ⟨_, _, script_eq w₁, script_eq w₂⟩

/-- C7: the orchestration is deterministic: two runs with identical
inherited environments, identical temporary-directory paths and identical
tool behaviours produce identical traces and identical output. -/
theorem C7_deterministic (w₁ w₂ : World)
    (henv : w₁.environ = w₂.environ)
    (htmp : w₁.gettempdir = w₂.gettempdir)
    (hrun : w₁.run = w₂.run) :
    script w₁ = script w₂ ∧ script_stdout w₁ = script_stdout w₂ := by
  obtain ⟨e₁, t₁, r₁⟩ := w₁
  obtain ⟨e₂, t₂, r₂⟩ := w₂
  cases henv
  cases htmp
  cases hrun
  exact ⟨rfl, rfl⟩

/-- Witness for C7: two verbatim-identical worlds print the same thing. -/
theorem C7_deterministic_witness :
    Lint.script_stdout stubWorld = Lint.script_stdout stubWorldCopy :=
  (C7_deterministic stubWorld stubWorldCopy rfl rfl rfl).2

/-- C8: the environment construction is total and computes only a path
string: for every world it yields a mapping that overrides exactly
`CARGO_TARGET_DIR` with the joined path and leaves every other key at its
inherited value. -/
theorem C8_buildEnvironment_total (w : World) :
    ∃ v : String,
      v = os_path_join w.gettempdir "dylint" ∧
      ∀ k, env w k = if k = "CARGO_TARGET_DIR" then some v else w.environ k :=
  ⟨_, rfl, fun k => env_apply w k⟩

/-- C9: execution is strictly sequential: in the event trace the first
tool's invocation (result already captured) strictly precedes the second
tool's invocation, which strictly precedes the print of the concatenation,
and the print is the last event. -/
theorem C9_strictly_sequential (w : World) :
    ∃ tr i j k, script w = Except.ok (tr, 0) ∧ i < j ∧ j < k ∧
      tr[i]? = some (Event.invoke dylint_command (env w) (dylint_output w)) ∧
      tr[j]? = some (Event.invoke clippy_command w.environ (clippy_output w)) ∧
      tr[k]? = some (Event.print (combined_output w ++ "\n")) ∧
      tr.length = k + 1 :=
  ⟨_, 0, 1, 2, script_eq w, by decide, by decide, rfl, rfl, rfl, rfl⟩

/-- C10: the first tool's argument list is the fixed six-element list in
which the two adjacent string literals are joined into the single argument
`--no-default-features--all-targets`; neither intended flag appears as a
separate element. -/
theorem C10_dylint_args_joined :
    dylint_command =
      ["cargo", "dylint", "--all", "--",
       "--no-default-features--all-targets", "--message-format=json"] ∧
    dylint_command.length = 6 ∧
    "--no-default-features" ∉ dylint_command ∧
    "--all-targets" ∉ dylint_command := by
  refine ⟨?_, rfl, ?_, ?_⟩ <;> decide

end Lint
